import Mathlib

/-!
Verification of the mentions-processor worker (src/python-worker/main.py).

The worker consumes entries from a Redis stream with a consumer group,
decodes each payload, drops noise records, enriches the rest with a
sentiment classification obtained from an external provider, inserts the
enriched row into a persistence store, and acknowledges the entry.

The embedding below is a shallow model of that code.  Python values that
can appear in a decoded payload are modelled by the inductive type
PyValue; Python exceptions by PyExn; the outcome of each external call
(provider request, JSON parse of the response, store insert, stream read,
group creation) is an explicit argument of the modelled function, so that
every control path of the source is a path of the model.
-/

namespace Flare

/-- Model of the Python/JSON values that can appear in a decoded payload. -/
inductive PyValue where
  | null
  | bool (b : Bool)
  | int (n : Int)
  | float (q : ℚ)
  | str (s : String)
  | list (xs : List PyValue)
  | dict (fields : List (String × PyValue))

/-- Python exceptions that the modelled code can raise. -/
inductive PyExn where
  | typeError
  | attributeError
  | jsonDecodeError
  | apiError
  | otherExn
deriving DecidableEq, Repr

/-- Lookup of a key in a Python dict, modelled as association-list lookup
(Python dict keys are unique). -/
def pyGet (fields : List (String × PyValue)) (key : String) : Option PyValue :=
  fields.lookup key

/-- Python truthiness of a value. -/
def pyTruthy : PyValue → Bool
  | .null => false
  | .bool b => b
  | .int n => n ≠ 0
  | .float q => q ≠ 0
  | .str s => s ≠ ""
  | .list xs => !xs.isEmpty
  | .dict fs => !fs.isEmpty

/-- Python truthiness of the result of dict.get (absent key gives None, which
is falsy). -/
def pyTruthyOpt : Option PyValue → Bool
  | none => false
  | some v => pyTruthy v

/-- Whitespace characters stripped by Python str.strip() (ASCII range). -/
def isPyWhitespace (c : Char) : Bool :=
  c = ' ' ∨ c = '\t' ∨ c = '\n' ∨ c = '\r' ∨ c = '\x0b' ∨ c = '\x0c'

/-- Model of Python str.strip(): remove leading and trailing whitespace. -/
def pyStrip (s : String) : String :=
  String.mk (((s.toList.dropWhile isPyWhitespace).reverse.dropWhile
    isPyWhitespace).reverse)

/-- Model of Python str.upper() for the ASCII labels used here. -/
def pyUpper (s : String) : String :=
  String.mk (s.toList.map Char.toUpper)

/-- Python len(), defined only on sized values; a non-sized argument raises
TypeError, modelled as none. -/
def pyLen : PyValue → Option Nat
  | .str s => some s.length
  | .list xs => some xs.length
  | .dict fs => some fs.length
  | _ => none

/-- Embedding of filter_noise (main.py lines 153-160).  Returns true when the
article is noise.  Evaluation order and short-circuiting follow the source:
a truthy title (or description) that has no len() raises TypeError. -/
def filter_noise (article : List (String × PyValue)) : Except PyExn Bool :=
  let t := pyGet article "title"
  if !(pyTruthyOpt t) then .ok true
  else
    match pyLen (t.getD .null) with
    | none => .error .typeError
    | some tlen =>
      if tlen < 10 then .ok true
      else
        let d := pyGet article "description"
        if !(pyTruthyOpt d) then .ok true
        else
          match pyLen (d.getD .null) with
          | none => .error .typeError
          | some dlen =>
            if dlen < 20 then .ok true else .ok false

/-- Sentiment result: the dict {"label": ..., "score": ...} returned by
get_sentiment.  Scores are modelled as rationals. -/
structure Sentiment where
  label : String
  score : ℚ
deriving DecidableEq, Repr

/-- Outcome of the one external classification call made inside the try block
of get_sentiment (main.py lines 112-122), together with the handling of the
response content.  content None or empty is the emptyContent case; otherwise
the JSON parse of the content either fails or yields a PyValue. -/
inductive CallOutcome where
  | apiError
  | otherError
  | emptyContent
  | content (parse : Except Unit PyValue)

/-- Label validation of main.py lines 127 and 131-133: the label is
uppercased, and an uppercased label outside the three recognized values is
replaced with UNKNOWN. -/
def validated_label (rawLabel : String) : String :=
  let upper := pyUpper rawLabel
  if upper = "POSITIVE" ∨ upper = "NEGATIVE" ∨ upper = "NEUTRAL"
  then upper else "UNKNOWN"

/-- Score validation of main.py lines 134-136 and the float() conversion of
line 138: a score that is not an int, float or bool (Python bools are ints),
or that is numeric but outside [0, 1], is replaced with 0.0. -/
def validated_score (rawScore : PyValue) : ℚ :=
  match rawScore with
  | .int n => if 0 ≤ (n : ℚ) ∧ (n : ℚ) ≤ 1 then (n : ℚ) else 0
  | .float q => if 0 ≤ q ∧ q ≤ 1 then q else 0
  | .bool b => if b then 1 else 0
  | _ => 0

/-- Body of the try block of get_sentiment (main.py lines 112-141): may raise,
exactly as the source may.  The raised exceptions are the ones the source can
raise there: JSONDecodeError from json.loads, APIError or any other exception
from the provider call, AttributeError from calling .get on a non-dict parse
result or .upper on a non-string label. -/
def get_sentiment_try (oc : CallOutcome) : Except PyExn Sentiment :=
  match oc with
  | .apiError => .error .apiError
  | .otherError => .error .otherExn
  | .emptyContent => .ok ⟨"ERROR_EMPTY_RESPONSE", 0⟩
  | .content (.error _) => .error .jsonDecodeError
  | .content (.ok v) =>
    match v with
    | .dict fields =>
      match (pyGet fields "label").getD (.str "UNKNOWN") with
      | .str rawLabel =>
        .ok ⟨validated_label rawLabel,
             validated_score ((pyGet fields "score").getD (.float 0))⟩
      | _ => .error .attributeError
    | _ => .error .attributeError

/-- Embedding of get_sentiment (main.py lines 92-151).  providerConfigured
models openai_client being non-None.  The Bool paired with the result records
whether the external provider call was issued.  The except clauses of the
source (JSONDecodeError, APIError, Exception) convert every raised exception
into a sentinel result, so the function never returns an error. -/
def get_sentiment (providerConfigured : Bool) (text : String) (oc : CallOutcome) :
    Except PyExn (Sentiment × Bool) :=
  if !providerConfigured then .ok (⟨"NEUTRAL", 1/2⟩, false)
  else if text = "" ∨ pyStrip text = "" then .ok (⟨"NEUTRAL", 0⟩, false)
  else
    match get_sentiment_try oc with
    | .ok r => .ok (r, true)
    | .error .jsonDecodeError => .ok (⟨"ERROR_JSON_DECODE", 0⟩, true)
    | .error .apiError => .ok (⟨"ERROR_API", 0⟩, true)
    | .error _ => .ok (⟨"ERROR_UNKNOWN", 0⟩, true)

/-- Configuration of the worker process: whether the classification provider
(openai_client) and the persistence store (supabase_client) are initialized. -/
structure Config where
  provider : Bool
  store : Bool

/-- Raw payload of a delivered stream entry, as handed to process_message.
A string payload carries the result of its structural JSON parse (the
environment decides how json.loads behaves on it); a dict payload is used
directly; any other Python value is the pother case. -/
inductive RawPayload where
  | pstr (parse : Except Unit PyValue)
  | pdict (fields : List (String × PyValue))
  | pother

/-- Decode stage of process_message (main.py lines 169-187): string payloads
are JSON-parsed (a parse failure, or a parse result that is not a dict, is a
decode failure); dict payloads are used directly; any other shape is a decode
failure.  none models the early normal return of the source. -/
def decode_payload : RawPayload → Option (List (String × PyValue))
  | .pstr (.ok (.dict fields)) => some fields
  | .pstr (.ok _) => none
  | .pstr (.error _) => none
  | .pdict fields => some fields
  | .pother => none

/-- Whether an optional field value is a string with non-whitespace content,
as tested by isinstance(x, str) and x.strip() in main.py lines 202-204. -/
def isNonBlankStr : Option PyValue → Bool
  | some (.str s) => pyStrip s ≠ ""
  | _ => false

/-- Text selected for sentiment analysis (main.py lines 197-205): the
description when it is a string with non-whitespace content, else the title
under the same condition, else the empty string. -/
def select_sentiment_text (article : List (String × PyValue)) : String :=
  let d := pyGet article "description"
  let t := pyGet article "title"
  if isNonBlankStr d then
    match d with
    | some (.str s) => s
    | _ => ""
  else if isNonBlankStr t then
    match t with
    | some (.str s) => s
    | _ => ""
  else ""

/-- Flattening of the source field (main.py lines 212-218): a dict source
contributes its name entry, any other value is used as-is, an absent field
gives None. -/
def source_display (article : List (String × PyValue)) : PyValue :=
  match pyGet article "source" with
  | some (.dict fs) => (pyGet fs "name").getD .null
  | some v => v
  | none => .null

/-- Row handed to the persistence insert (main.py lines 220-231). -/
def enriched_mention (article : List (String × PyValue)) (sentiment : Sentiment) :
    List (String × PyValue) :=
  [("keyword", (pyGet article "search_keyword").getD (.str "[Unknown Keyword]")),
   ("source", source_display article),
   ("title", (pyGet article "title").getD (.str "[No Title]")),
   ("body", (pyGet article "description").getD .null),
   ("url", (pyGet article "url").getD .null),
   ("image_url", (pyGet article "urlToImage").getD .null),
   ("published_at", (pyGet article "publishedAt").getD .null),
   ("sentiment_label", .str sentiment.label),
   ("sentiment_score", .float sentiment.score),
   ("raw_data", .dict article)]

/-- Outcome of the persistence-store insert call (main.py lines 235-248):
either the call raises, or it returns a response whose error attribute may
indicate a failure.  Both outcomes are absorbed by the source. -/
inductive InsertOutcome where
  | iraise
  | iresp (hasError : Bool)

/-- Observable effects of one process_message invocation: which stages ran,
whether the external provider call was issued, the text and result of the
classification, and the row passed to the store insert (if any). -/
structure Trace where
  filterInvoked : Bool
  classifierInvoked : Bool
  providerCalled : Bool
  sentimentText : Option String
  sentiment : Option Sentiment
  insertInvoked : Bool
  insertArg : Option (List (String × PyValue))

/-- Trace of an invocation that returned before reaching the noise filter. -/
def emptyTrace : Trace :=
  ⟨false, false, false, none, none, false, none⟩

/-- Embedding of process_message (main.py lines 162-250).  Decode failures
return normally with an empty trace; a noise record returns normally after
the filter; otherwise the classification and (when the store is configured)
the insert run, with the insert outcome absorbed by the except clause of the
source.  The only exceptions that can propagate are those of filter_noise. -/
def process_message (cfg : Config) (payload : RawPayload) (oc : CallOutcome)
    (io' : InsertOutcome) : Except PyExn Trace :=
  match decode_payload payload with
  | none => .ok emptyTrace
  | some article =>
    match filter_noise article with
    | .error e => .error e
    | .ok true => .ok { emptyTrace with filterInvoked := true }
    | .ok false =>
      let stext := select_sentiment_text article
      match get_sentiment cfg.provider stext oc with
      | .error e => .error e
      | .ok (s, called) =>
        let t : Trace :=
          { filterInvoked := true, classifierInvoked := true,
            providerCalled := called, sentimentText := some stext,
            sentiment := some s, insertInvoked := false, insertArg := none }
        if cfg.store then
          match io' with
          | .iraise =>
            .ok { t with insertInvoked := true,
                         insertArg := some (enriched_mention article s) }
          | .iresp _ =>
            .ok { t with insertInvoked := true,
                         insertArg := some (enriched_mention article s) }
        else .ok t

/-- One delivered stream entry together with the environment outcomes its
processing will encounter. -/
structure Msg where
  id : String
  payload : RawPayload
  oc : CallOutcome
  io' : InsertOutcome

/-- Inner for-loop of consume_stream (main.py lines 290-294): process each
delivered entry and acknowledge it once process_message returns normally.
Returns the ids acknowledged (in order) and the exception, if any, that
aborted the batch and escaped to the except clauses of the outer loop. -/
def process_batch (cfg : Config) : List Msg → List String × Option PyExn
  | [] => ([], none)
  | m :: rest =>
    match process_message cfg m.payload m.oc m.io' with
    | .ok _ =>
      let r := process_batch cfg rest
      (m.id :: r.1, r.2)
    | .error e => ([], some e)

/-- Outcome of one blocking read of the stream (main.py lines 279-285),
or the exception it (or the body that follows it) raised. -/
inductive ReadOutcome where
  | msgs (batch : List Msg)
  | empty
  | connError
  | timeoutError
  | otherError

/-- Observable effect of one iteration of the consumer loop: whether the loop
re-enters, the fixed backoff slept (seconds), whether group provisioning was
re-run, and the entry ids acknowledged. -/
structure StepResult where
  continues : Bool
  sleepSecs : Nat
  reprovisioned : Bool
  acks : List String

/-- Embedding of one iteration of the while-True loop of consume_stream
(main.py lines 277-304): no messages continues immediately; a delivered batch
is processed and acknowledged entry by entry, an exception escaping the batch
being caught by the generic except clause (5 s backoff); a connection error
sleeps 5 s, a command timeout 1 s; every branch re-enters the loop and none
re-runs group provisioning. -/
def loop_step (cfg : Config) (ro : ReadOutcome) : StepResult :=
  match ro with
  | .empty => ⟨true, 0, false, []⟩
  | .msgs batch =>
    match process_batch cfg batch with
    | (acked, none) => ⟨true, 0, false, acked⟩
    | (acked, some _) => ⟨true, 5, false, acked⟩
  | .connError => ⟨true, 5, false, []⟩
  | .timeoutError => ⟨true, 1, false, []⟩
  | .otherError => ⟨true, 5, false, []⟩

/-- Outcome of the xgroup_create call (main.py line 262): success, a redis
ResponseError carrying its message text, a connection error, or any other
exception. -/
inductive GroupCreateOutcome where
  | created
  | respError (msg : String)
  | connError
  | otherError

/-- Embedding of the group-provisioning prologue of consume_stream (main.py
lines 261-275).  Returns true when the consumer proceeds into the read loop:
on success, or on a ResponseError whose text contains BUSYGROUP (group
already exists); every other outcome returns from consume_stream without
entering the loop and without retrying. -/
def ensure_group (oc : GroupCreateOutcome) : Bool :=
  match oc with
  | .created => true
  | .respError m => decide ("BUSYGROUP".toList <:+: m.toList)
  | .connError => false
  | .otherError => false

/-! ## Spec-side definitions

These definitions follow the wording of the specification rather than the
source; the theorems below compare them with the embedded code. -/

/-- Shape restriction of a decoded-record field to the ArticleRecord data
model of the spec: the field is absent, null, or a string. -/
def strShaped : Option PyValue → Bool
  | none => true
  | some .null => true
  | some (.str _) => true
  | _ => false

/-- View of a decoded-record field as the optional string of the spec data
model (absent or null is absent). -/
def strField (article : List (String × PyValue)) (key : String) : Option String :=
  match pyGet article key with
  | some (.str s) => some s
  | _ => none

/-- Spec-side noise policy: noise iff the title is absent or shorter than
10 characters, or the description is absent or shorter than 20 characters. -/
def isNoiseSpec (title description : Option String) : Bool :=
  (match title with
   | none => true
   | some s => s.length < 10) ||
  (match description with
   | none => true
   | some s => s.length < 20)

/-- Score field values that the spec calls out-of-range or non-numeric.
Following Python, a bool is an int and so is numeric (and its value 0 or 1
is always in range). -/
def score_invalid : PyValue → Bool
  | .int n => ¬(0 ≤ (n : ℚ) ∧ (n : ℚ) ≤ 1)
  | .float q => ¬(0 ≤ q ∧ q ≤ 1)
  | .bool _ => false
  | .null => true
  | .str _ => true
  | .list _ => true
  | .dict _ => true

/-! ## Concrete sample values used by the witnesses -/

/-- Sample well-formed article: passes the noise filter (title of 28
characters, description of 44). -/
def sampleArticle : List (String × PyValue) :=
  [("title", .str "A sufficiently long headline"),
   ("description", .str "A description that is over twenty characters")]

/-- Sample successful provider call with a valid label and an in-range
integer score. -/
def sampleCall : CallOutcome :=
  .content (.ok (.dict [("label", .str "POSITIVE"), ("score", .int 1)]))

/-- Trace produced by processing sampleArticle with sampleCall under a fully
configured worker whose store insert raises. -/
def sampleTrace : Trace :=
  { filterInvoked := true, classifierInvoked := true, providerCalled := true,
    sentimentText := some "A description that is over twenty characters",
    sentiment := some ⟨"POSITIVE", 1⟩, insertInvoked := true,
    insertArg := some (enriched_mention sampleArticle ⟨"POSITIVE", 1⟩) }

/-- Sample article that passes the noise filter although its title and
description are not strings (both are lists, of length 10 and 20). -/
def blankArticle : List (String × PyValue) :=
  [("title", .list (List.replicate 10 PyValue.null)),
   ("description", .list (List.replicate 20 PyValue.null))]

/-! ## Helper lemmas -/

/-- Totality of the classifier: every call outcome yields an ok result. -/
theorem get_sentiment_total (providerConfigured : Bool) (text : String)
    (oc : CallOutcome) :
    ∃ s called, get_sentiment providerConfigured text oc = .ok (s, called) := by
  unfold get_sentiment
  split
  · exact ⟨_, _, rfl⟩
  · split
    · exact ⟨_, _, rfl⟩
    · rcases hr : get_sentiment_try oc with e | r
      · cases e <;> simp [hr]
      · simp [hr]

/-! ## Theorems for the claims -/

/-- Case analysis for fields restricted to the spec data-model shape. -/
theorem strShaped_cases (o : Option PyValue) (h : strShaped o = true) :
    o = none ∨ o = some .null ∨ ∃ s, o = some (.str s) := by
  match o with
  | none => exact Or.inl rfl
  | some .null => exact Or.inr (Or.inl rfl)
  | some (.str s) => exact Or.inr (Or.inr ⟨s, rfl⟩)
  | some (.bool b) => simp [strShaped] at h
  | some (.int n) => simp [strShaped] at h
  | some (.float q) => simp [strShaped] at h
  | some (.list xs) => simp [strShaped] at h
  | some (.dict fs) => simp [strShaped] at h

/-- Score validation replaces every invalid score with 0. -/
theorem validated_score_of_invalid (v : PyValue) (hv : score_invalid v = true) :
    validated_score v = 0 := by
  cases v with
  | int n => exact if_neg (of_decide_eq_true hv)
  | float q => exact if_neg (of_decide_eq_true hv)
  | bool b => simp [score_invalid] at hv
  | null => rfl
  | str s => rfl
  | list xs => rfl
  | dict fs => rfl

/-- Label validation replaces an unrecognized uppercased label with
UNKNOWN. -/
theorem validated_label_of_unrecognized (l : String)
    (h1 : pyUpper l ≠ "POSITIVE") (h2 : pyUpper l ≠ "NEGATIVE")
    (h3 : pyUpper l ≠ "NEUTRAL") :
    validated_label l = "UNKNOWN" :=
  if_neg (fun h => h.elim h1 (fun h' => h'.elim h2 h3))

/-- Claim C2: for every record whose title and description fields have the
ArticleRecord shape of the data model (absent, null, or a string), the noise
predicate returns a boolean without raising — it is a pure function of the
record, side effects being impossible in this embedding — and that boolean is
true iff the title is absent or shorter than 10 characters, or the
description is absent or shorter than 20 characters. -/
theorem filter_noise_matches_spec (article : List (String × PyValue))
    (ht : strShaped (pyGet article "title") = true)
    (hd : strShaped (pyGet article "description") = true) :
    filter_noise article =
      .ok (isNoiseSpec (strField article "title") (strField article "description")) := by
  rcases strShaped_cases _ ht with h1 | h1 | ⟨s, h1⟩ <;>
    rcases strShaped_cases _ hd with h2 | h2 | ⟨d, h2⟩ <;>
      simp [filter_noise, isNoiseSpec, strField, pyTruthyOpt, pyTruthy, pyLen, h1, h2] <;>
      split_ifs <;> simp_all

/-- Witness for C2 at the spec's own example record. -/
theorem filter_noise_matches_spec_witness :
    filter_noise [("title", PyValue.str "Short"), ("description", PyValue.str "also short")]
      = .ok (isNoiseSpec
          (strField [("title", PyValue.str "Short"), ("description", PyValue.str "also short")] "title")
          (strField [("title", PyValue.str "Short"), ("description", PyValue.str "also short")] "description")) ∧
    isNoiseSpec
      (strField [("title", PyValue.str "Short"), ("description", PyValue.str "also short")] "title")
      (strField [("title", PyValue.str "Short"), ("description", PyValue.str "also short")] "description") = true :=
  ⟨filter_noise_matches_spec _ (by decide) (by decide), by decide⟩

/-- Claim C3: for every input text and every outcome of the external
classification call (provider request failure, response-parse failure, or
any other unexpected fault), get_sentiment returns a (label, score) result
value and never propagates an error to its caller. -/
theorem classify_never_propagates_faults (providerConfigured : Bool)
    (text : String) (oc : CallOutcome) :
    (∃ s called, get_sentiment providerConfigured text oc = .ok (s, called)) ∧
    ∀ e, get_sentiment providerConfigured text oc ≠ .error e := by
  obtain ⟨s, c, h⟩ := get_sentiment_total providerConfigured text oc
  exact ⟨⟨s, c, h⟩, by intro e; simp [h]⟩

/-- Claim C5: with no classification provider configured, get_sentiment
returns {NEUTRAL, 0.5} for every text and every call outcome (in particular
independently of any external call, which is therefore never consulted);
with a provider configured but the text empty or whitespace-only, it returns
{NEUTRAL, 0.0}, again for every call outcome and with the provider-called
flag false. -/
theorem classify_degraded_defaults :
    (∀ (text : String) (oc : CallOutcome),
       get_sentiment false text oc = .ok (⟨"NEUTRAL", 1/2⟩, false)) ∧
    (∀ (text : String) (oc : CallOutcome), pyStrip text = "" →
       get_sentiment true text oc = .ok (⟨"NEUTRAL", 0⟩, false)) := by
  constructor
  · intro text oc; rfl
  · intro text oc h; simp [get_sentiment, h]

/-- Witness for C5 at a whitespace-only text. -/
theorem classify_degraded_defaults_witness :
    pyStrip "  " = "" ∧ get_sentiment true "  " .apiError = .ok (⟨"NEUTRAL", 0⟩, false) :=
  ⟨by decide, classify_degraded_defaults.2 "  " .apiError (by decide)⟩

/-- Claim C8: provisioning succeeds into the read loop on creation and on a
ResponseError whose message contains BUSYGROUP (group already exists); every
other provisioning failure keeps the consumer out of the read loop (the
function returns, with no retry). -/
theorem group_provisioning_idempotent :
    ensure_group .created = true ∧
    (∀ m : String, "BUSYGROUP".toList <:+: m.toList →
       ensure_group (.respError m) = true) ∧
    (∀ m : String, ¬("BUSYGROUP".toList <:+: m.toList) →
       ensure_group (.respError m) = false) ∧
    ensure_group .connError = false ∧
    ensure_group .otherError = false := by
  refine ⟨rfl, ?_, ?_, rfl, rfl⟩
  · intro m h; exact decide_eq_true h
  · intro m h; exact decide_eq_false h

/-- Witness for C8 at a concrete BUSYGROUP message and a concrete other
failure. -/
theorem group_provisioning_idempotent_witness :
    ensure_group (.respError "BUSYGROUP Consumer Group name already exists") = true ∧
    ensure_group (.respError "ERR no such key") = false :=
  ⟨group_provisioning_idempotent.2.1 _ (by decide),
   group_provisioning_idempotent.2.2.1 _ (by decide)⟩

/-- Claim C9: a connection fault inside the read loop produces a 5 s
backoff, a command timeout a 1 s backoff, and for every read outcome the
loop re-enters and never re-runs group provisioning. -/
theorem transient_faults_never_stop_consumer (cfg : Config) :
    loop_step cfg .connError = ⟨true, 5, false, []⟩ ∧
    loop_step cfg .timeoutError = ⟨true, 1, false, []⟩ ∧
    ∀ ro : ReadOutcome, (loop_step cfg ro).continues = true ∧
      (loop_step cfg ro).reprovisioned = false := by
  refine ⟨rfl, rfl, ?_⟩
  intro ro
  cases ro with
  | msgs batch =>
    rcases h : process_batch cfg batch with ⟨acked, e⟩
    cases e <;> simp [loop_step, h]
  | empty => exact ⟨rfl, rfl⟩
  | connError => exact ⟨rfl, rfl⟩
  | timeoutError => exact ⟨rfl, rfl⟩
  | otherError => exact ⟨rfl, rfl⟩

/-- Claim C1: whenever the pipeline call for a delivered entry returns
normally, the consumer loop acknowledges exactly that entry exactly once;
and the result of process_message is entirely independent of the
persistence-insert outcome, so an insert fault cannot affect the normal
return (nor, therefore, the acknowledgment). -/
theorem ack_on_normal_return :
    (∀ (cfg : Config) (m : Msg) (t : Trace),
       process_message cfg m.payload m.oc m.io' = .ok t →
       (loop_step cfg (.msgs [m])).acks = [m.id]) ∧
    (∀ (cfg : Config) (p : RawPayload) (oc : CallOutcome) (io₁ io₂ : InsertOutcome),
       process_message cfg p oc io₁ = process_message cfg p oc io₂) := by
  constructor
  · intro cfg m t h
    simp [loop_step, process_batch, h]
  · intro cfg p oc io₁ io₂
    unfold process_message
    cases decode_payload p with
    | none => rfl
    | some article =>
      cases hf : filter_noise article with
      | error e => simp only [hf]
      | ok b =>
        cases b with
        | true => simp only [hf]
        | false =>
          cases hg : get_sentiment cfg.provider (select_sentiment_text article) oc with
          | error e => simp only [hf, hg]
          | ok sc =>
            rcases sc with ⟨s, c⟩
            cases hst : cfg.store with
            | false => simp only [hf, hg, hst]; rfl
            | true => cases io₁ <;> cases io₂ <;> simp only [hf, hg, hst]

/-- Witness for C1: a fully processed entry whose store insert raises is
still acknowledged exactly once. -/
theorem ack_on_normal_return_witness :
    (loop_step ⟨true, true⟩
      (.msgs [⟨"1-0", .pdict sampleArticle, sampleCall, .iraise⟩])).acks = ["1-0"] :=
  ack_on_normal_return.1 ⟨true, true⟩
    ⟨"1-0", .pdict sampleArticle, sampleCall, .iraise⟩ sampleTrace rfl

/-- Claim C6: a payload that is an unparseable string or is neither a
string nor a dict makes process_message return normally with the empty
trace — filter, classifier and persister never invoked — and the entry is
still acknowledged. -/
theorem decode_failure_skips_and_acks (cfg : Config) (mid : String)
    (oc : CallOutcome) (io' : InsertOutcome) (payload : RawPayload)
    (h : (∃ e, payload = .pstr (.error e)) ∨ payload = .pother) :
    process_message cfg payload oc io' = .ok emptyTrace ∧
    emptyTrace.filterInvoked = false ∧
    emptyTrace.classifierInvoked = false ∧
    emptyTrace.insertInvoked = false ∧
    (loop_step cfg (.msgs [⟨mid, payload, oc, io'⟩])).acks = [mid] := by
  have hp : process_message cfg payload oc io' = .ok emptyTrace := by
    rcases h with ⟨e, rfl⟩ | rfl <;> rfl
  exact ⟨hp, rfl, rfl, rfl, by simp [loop_step, process_batch, hp]⟩

/-- Witness for C6 at a payload of unexpected type. -/
theorem decode_failure_skips_and_acks_witness :
    process_message ⟨true, true⟩ RawPayload.pother .apiError (.iresp false) = .ok emptyTrace ∧
    emptyTrace.filterInvoked = false ∧
    emptyTrace.classifierInvoked = false ∧
    emptyTrace.insertInvoked = false ∧
    (loop_step ⟨true, true⟩
      (.msgs [⟨"2-0", RawPayload.pother, .apiError, .iresp false⟩])).acks = ["2-0"] :=
  decode_failure_skips_and_acks ⟨true, true⟩ "2-0" .apiError (.iresp false)
    RawPayload.pother (Or.inr rfl)

/-- Claim C7: a decoded record classified as noise short-circuits the
pipeline — the classifier is never invoked, no provider call is made, and no
row is handed to the persistence store — yet the entry is acknowledged. -/
theorem noise_short_circuits (cfg : Config) (mid : String)
    (article : List (String × PyValue)) (oc : CallOutcome) (io' : InsertOutcome)
    (h : filter_noise article = .ok true) :
    ∃ t, process_message cfg (.pdict article) oc io' = .ok t ∧
      t.filterInvoked = true ∧ t.classifierInvoked = false ∧
      t.providerCalled = false ∧ t.insertInvoked = false ∧ t.insertArg = none ∧
      (loop_step cfg (.msgs [⟨mid, .pdict article, oc, io'⟩])).acks = [mid] := by
  have hp : process_message cfg (.pdict article) oc io' =
      .ok { emptyTrace with filterInvoked := true } := by
    simp [process_message, decode_payload, h]
  exact ⟨_, hp, rfl, rfl, rfl, rfl, rfl, by simp [loop_step, process_batch, hp]⟩

/-- Witness for C7 at the spec's noise example. -/
theorem noise_short_circuits_witness :
    ∃ t, process_message ⟨true, true⟩
        (.pdict [("title", PyValue.str "Short"), ("description", PyValue.str "also short")])
        .apiError (.iresp false) = .ok t ∧
      t.filterInvoked = true ∧ t.classifierInvoked = false ∧
      t.providerCalled = false ∧ t.insertInvoked = false ∧ t.insertArg = none ∧
      (loop_step ⟨true, true⟩
        (.msgs [⟨"3-0",
          .pdict [("title", PyValue.str "Short"), ("description", PyValue.str "also short")],
          .apiError, .iresp false⟩])).acks = ["3-0"] :=
  noise_short_circuits ⟨true, true⟩ "3-0"
    [("title", PyValue.str "Short"), ("description", PyValue.str "also short")]
    .apiError (.iresp false) rfl

/-- Reduction of get_sentiment under a configured provider and nonblank
text. -/
theorem get_sentiment_configured (text : String) (oc : CallOutcome)
    (htext : ¬(text = "" ∨ pyStrip text = "")) :
    get_sentiment true text oc =
      match get_sentiment_try oc with
      | .ok r => .ok (r, true)
      | .error .jsonDecodeError => .ok (⟨"ERROR_JSON_DECODE", 0⟩, true)
      | .error .apiError => .ok (⟨"ERROR_API", 0⟩, true)
      | .error _ => .ok (⟨"ERROR_UNKNOWN", 0⟩, true) := by
  simp [get_sentiment, htext]

/-- Counterexample to claim C4 as stated: the provider response with label
42 (outside {POSITIVE, NEGATIVE, NEUTRAL}) yields label ERROR_UNKNOWN, not
UNKNOWN — the non-string label makes the .upper() call raise, and the
generic handler takes over. -/
theorem classify_validation_counterexample :
    get_sentiment true "review text"
      (.content (.ok (.dict [("label", PyValue.int 42), ("score", PyValue.int 1)])))
      = .ok (⟨"ERROR_UNKNOWN", 0⟩, true) ∧
    ("ERROR_UNKNOWN" : String) ≠ "UNKNOWN" :=
  ⟨rfl, by decide⟩

/-- Claim C4 (amended): for every structurally valid provider response
(a parsed JSON object), a score outside [0, 1] or non-numeric (not an int,
float, or bool) yields a result score of 0.0; a label that is a string (or
absent) whose uppercased form is outside {POSITIVE, NEGATIVE, NEUTRAL}
yields the label UNKNOWN; and a label that is present but not a string
yields {ERROR_UNKNOWN, 0.0}. -/
theorem classify_validation_amended (text : String)
    (fields : List (String × PyValue))
    (htext : ¬(text = "" ∨ pyStrip text = "")) :
    (score_invalid ((pyGet fields "score").getD (.float 0)) = true →
       ∃ s c, get_sentiment true text (.content (.ok (.dict fields))) = .ok (s, c) ∧
         s.score = 0) ∧
    (∀ l, (pyGet fields "label").getD (.str "UNKNOWN") = .str l →
       pyUpper l ≠ "POSITIVE" → pyUpper l ≠ "NEGATIVE" → pyUpper l ≠ "NEUTRAL" →
       ∃ s c, get_sentiment true text (.content (.ok (.dict fields))) = .ok (s, c) ∧
         s.label = "UNKNOWN") ∧
    ((∀ l, (pyGet fields "label").getD (.str "UNKNOWN") ≠ .str l) →
       get_sentiment true text (.content (.ok (.dict fields))) =
         .ok (⟨"ERROR_UNKNOWN", 0⟩, true)) := by
  have hmain := get_sentiment_configured text (.content (.ok (.dict fields))) htext
  cases hl : (pyGet fields "label").getD (.str "UNKNOWN")
  case str l =>
    have htry : get_sentiment_try (.content (.ok (.dict fields))) =
        .ok ⟨validated_label l,
             validated_score ((pyGet fields "score").getD (.float 0))⟩ := by
      simp only [get_sentiment_try, hl]
    rw [htry] at hmain
    refine ⟨?_, ?_, ?_⟩
    · intro hs
      exact ⟨_, _, hmain, validated_score_of_invalid _ hs⟩
    · intro l' hl' h1 h2 h3
      injection hl' with h
      subst h
      exact ⟨_, _, hmain, validated_label_of_unrecognized l h1 h2 h3⟩
    · intro hno
      exact absurd rfl (hno l)
  all_goals {
    have htry : get_sentiment_try (.content (.ok (.dict fields))) =
        .error .attributeError := by
      simp only [get_sentiment_try, hl]
    rw [htry] at hmain
    exact ⟨fun _ => ⟨_, _, hmain, rfl⟩,
           fun l' hl' _ _ _ => PyValue.noConfusion hl',
           fun _ => hmain⟩ }

/-- Witness for C4 (amended) at a non-numeric score, an unrecognized
string label, and a non-string label. -/
theorem classify_validation_amended_witness :
    (∃ s c, get_sentiment true "good text"
        (.content (.ok (.dict [("label", PyValue.str "odd"), ("score", PyValue.str "high")])))
        = .ok (s, c) ∧ s.score = 0) ∧
    (∃ s c, get_sentiment true "good text"
        (.content (.ok (.dict [("label", PyValue.str "odd"), ("score", PyValue.str "high")])))
        = .ok (s, c) ∧ s.label = "UNKNOWN") ∧
    get_sentiment true "good text"
        (.content (.ok (.dict [("label", PyValue.int 7)])))
        = .ok (⟨"ERROR_UNKNOWN", 0⟩, true) := by
  refine ⟨?_, ?_, ?_⟩
  · exact (classify_validation_amended "good text"
      [("label", PyValue.str "odd"), ("score", PyValue.str "high")] (by decide)).1 (by decide)
  · exact (classify_validation_amended "good text"
      [("label", PyValue.str "odd"), ("score", PyValue.str "high")] (by decide)).2.1
      "odd" rfl (by decide) (by decide) (by decide)
  · exact (classify_validation_amended "good text"
      [("label", PyValue.int 7)] (by decide)).2.2
      (by intro l h; exact PyValue.noConfusion h)


/-- Claim C10: with a configured provider, for every decoded record that
passes the noise filter the text handed to the classifier is the description
when it is a string with non-whitespace content, else the title under the
same condition, else the empty string; and when description and title are
both absent, blank, or non-string, the recorded sentiment is {NEUTRAL, 0.0}
and no provider call is made. -/
theorem sentiment_text_selection (cfg : Config) (article : List (String × PyValue))
    (oc : CallOutcome) (io' : InsertOutcome)
    (hp : cfg.provider = true)
    (hf : filter_noise article = .ok false) :
    ∃ t, process_message cfg (.pdict article) oc io' = .ok t ∧
      t.sentimentText = some (select_sentiment_text article) ∧
      (∀ s, isNonBlankStr (pyGet article "description") = true →
         pyGet article "description" = some (.str s) →
         select_sentiment_text article = s) ∧
      (∀ s, isNonBlankStr (pyGet article "description") = false →
         isNonBlankStr (pyGet article "title") = true →
         pyGet article "title" = some (.str s) →
         select_sentiment_text article = s) ∧
      (isNonBlankStr (pyGet article "description") = false →
         isNonBlankStr (pyGet article "title") = false →
         select_sentiment_text article = "" ∧
         t.sentiment = some ⟨"NEUTRAL", 0⟩ ∧ t.providerCalled = false) := by
  obtain ⟨s0, c0, hg⟩ := get_sentiment_total cfg.provider (select_sentiment_text article) oc
  have hproc : ∃ t, process_message cfg (.pdict article) oc io' = .ok t ∧
      t.sentimentText = some (select_sentiment_text article) ∧
      t.sentiment = some s0 ∧ t.providerCalled = c0 := by
    cases hst : cfg.store with
    | false =>
      exact ⟨⟨true, true, c0, some (select_sentiment_text article), some s0, false, none⟩,
        by simp [process_message, decode_payload, hf, hg, hst], rfl, rfl, rfl⟩
    | true =>
      cases io' with
      | iraise =>
        exact ⟨⟨true, true, c0, some (select_sentiment_text article), some s0, true,
          some (enriched_mention article s0)⟩,
          by simp [process_message, decode_payload, hf, hg, hst], rfl, rfl, rfl⟩
      | iresp b =>
        exact ⟨⟨true, true, c0, some (select_sentiment_text article), some s0, true,
          some (enriched_mention article s0)⟩,
          by simp [process_message, decode_payload, hf, hg, hst], rfl, rfl, rfl⟩
  obtain ⟨t, hpm, hT1, hT2, hT3⟩ := hproc
  have hsel1 : ∀ s, isNonBlankStr (pyGet article "description") = true →
      pyGet article "description" = some (.str s) →
      select_sentiment_text article = s := by
    intro s hnb heq
    rw [heq] at hnb
    simp [select_sentiment_text, heq, hnb]
  have hsel2 : ∀ s, isNonBlankStr (pyGet article "description") = false →
      isNonBlankStr (pyGet article "title") = true →
      pyGet article "title" = some (.str s) →
      select_sentiment_text article = s := by
    intro s hd hnb heq
    rw [heq] at hnb
    simp [select_sentiment_text, hd, heq, hnb]
  refine ⟨t, hpm, hT1, hsel1, hsel2, ?_⟩
  intro hd ht
  have hsel0 : select_sentiment_text article = "" := by
    simp [select_sentiment_text, hd, ht]
  rw [hp, hsel0] at hg
  have h0 : get_sentiment true "" oc = .ok (⟨"NEUTRAL", 0⟩, false) := rfl
  rw [h0] at hg
  simp only [Except.ok.injEq, Prod.mk.injEq] at hg
  obtain ⟨hgs, hgc⟩ := hg
  refine ⟨hsel0, ?_, ?_⟩
  · rw [hT2, ← hgs]
  · rw [hT3, ← hgc]

/-- Witness for C10 at a record whose title and description are lists. -/
theorem sentiment_text_selection_witness :
    ∃ t, process_message ⟨true, true⟩ (.pdict blankArticle) .apiError (.iresp false) = .ok t ∧
      t.sentimentText = some (select_sentiment_text blankArticle) ∧
      (∀ s, isNonBlankStr (pyGet blankArticle "description") = true →
         pyGet blankArticle "description" = some (.str s) →
         select_sentiment_text blankArticle = s) ∧
      (∀ s, isNonBlankStr (pyGet blankArticle "description") = false →
         isNonBlankStr (pyGet blankArticle "title") = true →
         pyGet blankArticle "title" = some (.str s) →
         select_sentiment_text blankArticle = s) ∧
      (isNonBlankStr (pyGet blankArticle "description") = false →
         isNonBlankStr (pyGet blankArticle "title") = false →
         select_sentiment_text blankArticle = "" ∧
         t.sentiment = some ⟨"NEUTRAL", 0⟩ ∧ t.providerCalled = false) :=
  sentiment_text_selection ⟨true, true⟩ blankArticle .apiError (.iresp false) rfl rfl

end Flare
